import Mathlib

/-!
Shallow embedding of the HeySalad Raspberry Pi vision client
(`rpi-vision-client/main.py`).

The client's external effects (the ffmpeg subprocess, the HTTP requests,
`time.sleep`) are modelled by oracle parameters describing the outcome of
each external call, and by explicit event traces recording the calls and
sleeps the code performs.  Pure control flow (the retry loop, the per-cycle
camera loop, the inter-cycle sleep computation, argument validation) is
translated directly from the source.
-/

namespace RPiVision

/-- Raw image bytes (`result.stdout` of the ffmpeg call), as a list of byte
values. -/
abbrev Bytes := List Nat

/-- Outcome of the `subprocess.run(cmd, capture_output=True, timeout=10)`
call in `capture_frame`: either the process completed with a return code and
captured stdout, or one of the exception classes caught by `capture_frame`
(`subprocess.TimeoutExpired`, `FileNotFoundError` for a missing ffmpeg
binary, or any other exception). -/
inductive SubprocessOutcome where
  | completed (returncode : Int) (stdout : Bytes)
  | timeoutExpired
  | fileNotFound
  | otherError
deriving DecidableEq

/-- `capture_frame` (main.py lines 73-130): returns the captured JPEG bytes,
or `none` when the subprocess has a non-zero return code, produced zero
bytes of output, timed out, when ffmpeg is not installed, or on any other
exception. -/
def capture_frame (proc : SubprocessOutcome) : Option Bytes :=
  match proc with
  | .completed returncode stdout =>
      if returncode ≠ 0 then none
      else if stdout.length = 0 then none
      else some stdout
  | .timeoutExpired => none
  | .fileNotFound => none
  | .otherError => none

/-- One observable step of `capture_frame_with_retry`: a call to
`capture_frame` (with its attempt index and result) or a
`time.sleep(backoff)` backoff sleep with its duration in seconds. -/
inductive RetryEvent where
  | capture (attempt : Nat) (result : Option Bytes)
  | backoffSleep (duration : Nat)
deriving DecidableEq

/-- Body of the `for attempt in range(max_retries)` loop of
`capture_frame_with_retry` (main.py lines 145-154), recursing over the list
of remaining attempt indices.  A successful capture returns immediately; a
failed attempt is followed by a `time.sleep(2 ** attempt)` exactly when
`attempt < max_retries - 1`. -/
def retryGo (oracle : Nat → SubprocessOutcome) (max_retries : Nat) :
    List Nat → List RetryEvent × Option Bytes
  | [] => ([], none)
  | attempt :: rest =>
    match capture_frame (oracle attempt) with
    | some frame => ([.capture attempt (some frame)], some frame)
    | none =>
      let tail := retryGo oracle max_retries rest
      if attempt < max_retries - 1 then
        (.capture attempt none :: .backoffSleep (2 ^ attempt) :: tail.1, tail.2)
      else
        (.capture attempt none :: tail.1, tail.2)

/-- `capture_frame_with_retry` (main.py lines 132-157).  `max_retries` is an
`int` in Python (the CLI accepts any integer); `range(max_retries)` is empty
when `max_retries ≤ 0`, which `Int.toNat` reproduces.  The `oracle` gives
the subprocess outcome of each attempt.  Returns the full event trace and
the returned value (`some` bytes, or `none` after all attempts fail). -/
def capture_frame_with_retry (oracle : Nat → SubprocessOutcome)
    (max_retries : Int) : List RetryEvent × Option Bytes :=
  retryGo oracle max_retries.toNat (List.range max_retries.toNat)

/-- Whether a retry event is a `capture_frame` call. -/
def isCaptureEvent : RetryEvent → Bool
  | .capture _ _ => true
  | .backoffSleep _ => false

/-- Number of `capture_frame` calls in a retry trace. -/
def captureCalls (evs : List RetryEvent) : Nat :=
  (evs.filter isCaptureEvent).length

/-- Durations of the backoff sleeps of a retry trace, in order. -/
def sleepDurations (evs : List RetryEvent) : List Nat :=
  evs.filterMap fun e =>
    match e with
    | .backoffSleep d => some d
    | _ => none

/-- Total backoff-sleep duration of a retry trace. -/
def totalSleep (evs : List RetryEvent) : Nat :=
  (sleepDurations evs).sum

/-- The part of a retry trace strictly after its first backoff sleep:
the work still performed after a shutdown request delivered during that
sleep (the Python signal handler only sets a flag; `time.sleep` resumes and
the loop in lines 145-154 never reads `self.running`). -/
def afterFirstSleep (evs : List RetryEvent) : List RetryEvent :=
  (evs.dropWhile isCaptureEvent).drop 1

/-- An ffmpeg invocation that always times out: a source whose acquisition
fails on every attempt. -/
def alwaysTimeout : Nat → SubprocessOutcome := fun _ => .timeoutExpired

/-- Parsed JSON body of a successful detection response (`objects` is kept
as its length, the only use the client makes of it). -/
structure DetectionResult where
  objects : Nat
  processing_time_ms : Nat
deriving DecidableEq

/-- Outcome of the `requests.post` call in `send_frame`: an HTTP response
with a status code and (for the 200 case) an optional parsed JSON body
(`none` when `response.json()` raises), or one of the exception classes
caught (`Timeout`, `ConnectionError`, any other exception). -/
inductive HttpOutcome where
  | response (status_code : Nat) (body : Option DetectionResult)
  | timeout
  | connectionError
  | otherError
deriving DecidableEq

/-- `send_frame` (main.py lines 159-223): `none` on HTTP 401, HTTP 404, any
other non-200 status, timeout, connection failure, any other exception, or
an unparseable 200 body; the parsed result on a well-formed 200 response. -/
def send_frame (http : HttpOutcome) : Option DetectionResult :=
  match http with
  | .response status body =>
      if status = 401 then none
      else if status = 404 then none
      else if status ≠ 200 then none
      else body
  | .timeout => none
  | .connectionError => none
  | .otherError => none

/-- `CameraConfig` dataclass (main.py lines 32-37). -/
structure CameraConfig where
  camera_id : String
  rtsp_url : String
  name : Option String := none
deriving DecidableEq

/-- `ClientConfig` dataclass (main.py lines 40-47).  `interval` is a float,
modelled as a rational; `max_retries` is an `int`. -/
structure ClientConfig where
  api_url : String
  api_key : String
  cameras : List CameraConfig
  interval : ℚ := 2
  max_retries : Int := 5
deriving DecidableEq

/-- External behaviour of one camera during one cycle: the subprocess
outcome of each acquisition attempt, and the HTTP outcome of the detection
submission (used only if a frame is captured). -/
structure CameraBehavior where
  subprocessAt : Nat → SubprocessOutcome
  httpOutcome : HttpOutcome

/-- Observable step of one scheduler cycle. -/
inductive Event where
  | captureAttempt (camera_id : String) (attempt : Nat) (result : Option Bytes)
  | retrySleep (camera_id : String) (duration : Nat)
  | healthReport (camera_id : String) (error : String)
  | submitFrame (camera_id : String) (result : Option DetectionResult)
deriving DecidableEq

/-- Whether an event is a health report. -/
def isHealthReportEv : Event → Bool
  | .healthReport _ _ => true
  | _ => false

/-- Whether an event is a detection submission. -/
def isSubmitEv : Event → Bool
  | .submitFrame _ _ => true
  | _ => false

/-- Tag a retry-loop event with the camera it belongs to. -/
def retryEventFor (camera_id : String) : RetryEvent → Event
  | .capture attempt result => .captureAttempt camera_id attempt result
  | .backoffSleep d => .retrySleep camera_id d

/-- `process_camera` (main.py lines 261-286): capture with retry; on
failure, report to the health endpoint with the message
`f"Failed to capture frame from {camera.rtsp_url}"` and return; on success,
submit the frame for detection (the submission result is only logged). -/
def process_camera (cfg : ClientConfig) (camera : CameraConfig)
    (beh : CameraBehavior) : List Event :=
  let res := capture_frame_with_retry beh.subprocessAt cfg.max_retries
  let evs := res.1.map (retryEventFor camera.camera_id)
  match res.2 with
  | none =>
      evs ++ [.healthReport camera.camera_id
        ("Failed to capture frame from " ++ camera.rtsp_url)]
  | some _ =>
      evs ++ [.submitFrame camera.camera_id (send_frame beh.httpOutcome)]

/-- The `for camera in self.config.cameras` loop of `run` (main.py lines
304-307): before each camera the loop checks `if not self.running: break`.
`runningAt i` is the value of `self.running` read at the check preceding
the i-th camera; `behs` gives each camera's external behaviour. -/
def cameraLoop (cfg : ClientConfig) (behs : String → CameraBehavior)
    (runningAt : Nat → Bool) : List CameraConfig → Nat → List Event
  | [], _ => []
  | camera :: rest, i =>
    if runningAt i then
      process_camera cfg camera (behs camera.camera_id)
        ++ cameraLoop cfg behs runningAt rest (i + 1)
    else []

/-- `sleep_time = max(0, self.config.interval - elapsed)` (main.py
line 311). -/
def cycle_sleep_time (interval elapsed : ℚ) : ℚ :=
  max 0 (interval - elapsed)

/-- Duration actually slept at the end of a cycle (main.py lines 311-315):
`time.sleep(sleep_time)` runs only `if sleep_time > 0 and self.running`. -/
def cycleSleep (interval elapsed : ℚ) (running : Bool) : ℚ :=
  if 0 < cycle_sleep_time interval elapsed ∧ running = true then
    cycle_sleep_time interval elapsed
  else 0

/-- Time from one cycle start to the next when the client keeps running:
the processing time of the cycle plus the inter-cycle sleep. -/
def cycleGap (interval elapsed : ℚ) : ℚ :=
  elapsed + cycleSleep interval elapsed true

/-- The two writes ever made to `self.running`: the signal handler
`_handle_shutdown` (main.py line 71, `self.running = False`) and the start
of `run` (main.py line 298, `self.running = True`). -/
inductive FlagAction where
  | handleShutdown
  | startRun
deriving DecidableEq

/-- Effect of one write on the `running` flag. -/
def applyFlagAction (_running : Bool) : FlagAction → Bool
  | .handleShutdown => false
  | .startRun => true

/-- Value of `self.running` after a sequence of writes, starting from the
`self.running = False` of `__init__` (main.py line 60); the signal handlers
are installed by `__init__` before `run` is called. -/
def flagAfter (actions : List FlagAction) : Bool :=
  List.foldl applyFlagAction false actions

/-- The two shutdown signals registered in `_setup_signal_handlers`
(main.py lines 63-66). -/
inductive Signal where
  | sigint
  | sigterm
deriving DecidableEq

/-- Both SIGINT and SIGTERM are bound to the same `_handle_shutdown`
handler. -/
def installedHandler : Signal → FlagAction := fun _ => .handleShutdown

/-- Parsed command-line / environment arguments relevant to validation
(`parse_args`, main.py lines 356-423).  `api_url`/`api_key`/`config` are
`None` when absent; `cameras` is the list of `--camera` strings or `None`
when the flag was never given. -/
structure Args where
  api_url : Option String
  api_key : Option String
  config : Option String
  cameras : Option (List String)
  interval : ℚ
  max_retries : Int
deriving DecidableEq

/-- Python truthiness of an optional string: `not x` is true for `None` and
for the empty string. -/
def strFalsy : Option String → Bool
  | none => true
  | some s => s.isEmpty

/-- Split a character list at its first colon, returning the parts before
and after it, or `none` when there is no colon. -/
def splitFirstColon : List Char → Option (List Char × List Char)
  | [] => none
  | c :: rest =>
    if c = ':' then some ([], rest)
    else
      match splitFirstColon rest with
      | none => none
      | some (a, b) => some (c :: a, b)

/-- `camera_id, rtsp_url = cam_str.split(':', 1)` (main.py line 458):
splits at the first colon; raises `ValueError` (here `none`) when the
string has no colon. -/
def parseCameraArg (s : String) : Option (String × String) :=
  match splitFirstColon s.data with
  | none => none
  | some (a, b) => some (⟨a⟩, ⟨b⟩)

/-- The `for cam_str in args.cameras` loop of `main` (main.py lines
456-466): any malformed entry exits the process. -/
def parseCameraArgs : List String → Option (List CameraConfig)
  | [] => some []
  | s :: rest =>
    match parseCameraArg s with
    | none => none
    | some (camera_id, rtsp_url) =>
      match parseCameraArgs rest with
      | none => none
      | some cams =>
          some ({ camera_id := camera_id, rtsp_url := rtsp_url } :: cams)

/-- Camera-list resolution in `main` (main.py lines 444-469): a truthy
`--config` path loads from the file (`fileLoad = none` models the
`except Exception` branch, exit 1); otherwise truthy `--camera` arguments
are parsed (any malformed one exits 1); otherwise cameras come from the
environment. -/
def resolveCameras (args : Args) (fileLoad : Option (List CameraConfig))
    (envCameras : List CameraConfig) : Except Nat (List CameraConfig) :=
  if ¬ strFalsy args.config then
    match fileLoad with
    | some cams => .ok cams
    | none => .error 1
  else
    match args.cameras with
    | some camStrs =>
      if camStrs.isEmpty then .ok envCameras
      else
        match parseCameraArgs camStrs with
        | some cams => .ok cams
        | none => .error 1
    | none => .ok envCameras

/-- Startup validation of `main` (main.py lines 426-485): `sys.exit(1)` on
missing/empty API URL, missing/empty API key, a camera-resolution failure,
or an empty camera list; otherwise the `ClientConfig` handed to the
scheduler (with `api_url.rstrip('/')`). -/
def mainValidate (args : Args) (fileLoad : Option (List CameraConfig))
    (envCameras : List CameraConfig) : Except Nat ClientConfig :=
  if strFalsy args.api_url then .error 1
  else if strFalsy args.api_key then .error 1
  else
    match resolveCameras args fileLoad envCameras with
    | .error c => .error c
    | .ok cams =>
      if cams.isEmpty then .error 1
      else .ok {
        api_url := ((args.api_url.getD "").dropRightWhile (· = '/'))
        api_key := args.api_key.getD ""
        cameras := cams
        interval := args.interval
        max_retries := args.max_retries }

/-- Concrete camera used to instantiate theorems. -/
def camA : CameraConfig := { camera_id := "cam1", rtsp_url := "rtsp://a" }

/-- A second concrete camera, configured after `camA`. -/
def camB : CameraConfig := { camera_id := "cam2", rtsp_url := "rtsp://b" }

/-- Concrete client configuration (default interval 2.0 and max_retries 5,
as in the dataclass). -/
def cfgW : ClientConfig :=
  { api_url := "http://api", api_key := "k", cameras := [camA, camB] }

/-- Concrete JPEG payload. -/
def okBytes : Bytes := [255, 216, 255]

/-- An ffmpeg invocation that always succeeds with `okBytes`. -/
def alwaysOk : Nat → SubprocessOutcome := fun _ => .completed 0 okBytes

/-- An ffmpeg invocation that times out on attempt 0 and succeeds
afterwards. -/
def failThenOk : Nat → SubprocessOutcome := fun i =>
  if i = 0 then .timeoutExpired else .completed 0 okBytes

/-- Camera behaviour: acquisition always times out. -/
def behTimeout : CameraBehavior :=
  { subprocessAt := alwaysTimeout, httpOutcome := .timeout }

/-- Camera behaviour: acquisition succeeds, detection endpoint returns
HTTP 401. -/
def behOk401 : CameraBehavior :=
  { subprocessAt := alwaysOk, httpOutcome := .response 401 none }

/-- Behaviour assignment used with `cfgW`: every camera times out. -/
def behsTimeout : String → CameraBehavior := fun _ => behTimeout

/-- Parsed arguments with a malformed `--camera` string (no colon). -/
def argsBad : Args :=
  { api_url := some "http://api", api_key := some "k", config := none,
    cameras := some ["nocolon"], interval := 2, max_retries := 5 }

/-- Well-formed parsed arguments taking cameras from the environment. -/
def argsOk : Args :=
  { api_url := some "http://api", api_key := some "k", config := none,
    cameras := none, interval := 2, max_retries := 5 }

/-! ## General lemmas about the retry loop -/

/-- If every attempt in the list fails, the retry loop visits each attempt,
sleeping after it exactly when further attempts remain, and returns
`none`. -/
theorem retryGo_fail_eq (oracle : Nat → SubprocessOutcome) (N : Nat)
    (attempts : List Nat)
    (h : ∀ a ∈ attempts, capture_frame (oracle a) = none) :
    retryGo oracle N attempts =
      (attempts.flatMap (fun a =>
        if a < N - 1 then
          [RetryEvent.capture a none, RetryEvent.backoffSleep (2 ^ a)]
        else [RetryEvent.capture a none]), none) := by
  induction attempts with
  | nil => rfl
  | cons a rest ih =>
    have ha := h a (List.mem_cons_self a rest)
    have hr := ih (fun x hx => h x (List.mem_cons_of_mem _ hx))
    simp only [retryGo, ha, hr, List.flatMap_cons]
    by_cases hlt : a < N - 1
    · simp [hlt]
    · simp [hlt]

theorem captureCalls_append (l₁ l₂ : List RetryEvent) :
    captureCalls (l₁ ++ l₂) = captureCalls l₁ + captureCalls l₂ := by
  simp [captureCalls, List.filter_append]

theorem sleepDurations_append (l₁ l₂ : List RetryEvent) :
    sleepDurations (l₁ ++ l₂) = sleepDurations l₁ ++ sleepDurations l₂ := by
  simp [sleepDurations, List.filterMap_append]

/-- Capture-call count of a trace consisting of failed attempts each
followed by a backoff sleep. -/
theorem captureCalls_pairTrace (l : List Nat) :
    captureCalls (l.flatMap (fun a =>
      [RetryEvent.capture a none, RetryEvent.backoffSleep (2 ^ a)])) =
      l.length := by
  induction l with
  | nil => rfl
  | cons a rest ih =>
    rw [List.flatMap_cons, captureCalls_append, ih]
    simp [captureCalls, isCaptureEvent]
    omega

/-- Sleep durations of a trace consisting of failed attempts each followed
by a backoff sleep. -/
theorem sleepDurations_pairTrace (l : List Nat) :
    sleepDurations (l.flatMap (fun a =>
      [RetryEvent.capture a none, RetryEvent.backoffSleep (2 ^ a)])) =
      l.map (2 ^ ·) := by
  induction l with
  | nil => rfl
  | cons a rest ih =>
    rw [List.flatMap_cons, sleepDurations_append, ih]
    simp [sleepDurations]

/-- On attempts that are all below `N - 1`, the failing retry trace sleeps
after every attempt. -/
theorem flatMap_chunk_eq (N : Nat) (l : List Nat) (h : ∀ a ∈ l, a < N - 1) :
    l.flatMap (fun a =>
      if a < N - 1 then
        [RetryEvent.capture a none, RetryEvent.backoffSleep (2 ^ a)]
      else [RetryEvent.capture a none])
    = l.flatMap (fun a =>
        [RetryEvent.capture a none, RetryEvent.backoffSleep (2 ^ a)]) := by
  induction l with
  | nil => rfl
  | cons a rest ih =>
    simp only [List.flatMap_cons, if_pos (h a (List.mem_cons_self a rest)),
      ih (fun x hx => h x (List.mem_cons_of_mem _ hx))]

/-- If attempts `s, s+1, …` all fail before attempt `m` and attempt `m`
succeeds, the retry loop sleeps after each failed attempt and stops at the
first success. -/
theorem retryGo_first_success (oracle : Nat → SubprocessOutcome) (N m : Nat)
    (f : Bytes) (h1 : ∀ i, i < m → capture_frame (oracle i) = none)
    (h2 : capture_frame (oracle m) = some f) (hm : m < N) :
    ∀ n s, s + n = N → s ≤ m →
      retryGo oracle N (List.range' s n) =
        ((List.range' s (m - s)).flatMap (fun a =>
            [RetryEvent.capture a none, RetryEvent.backoffSleep (2 ^ a)])
          ++ [RetryEvent.capture m (some f)], some f) := by
  intro n
  induction n with
  | zero => intro s hs hsm; omega
  | succ n ih =>
    intro s hs hsm
    rw [List.range'_succ]
    by_cases hcase : s = m
    · have h2s : capture_frame (oracle s) = some f := by rw [hcase]; exact h2
      have hms : m - s = 0 := by omega
      rw [hms]
      simp [retryGo, h2s, ← hcase]
    · have hslt : s < m := lt_of_le_of_ne hsm hcase
      have h1s := h1 s hslt
      have hlt : s < N - 1 := by omega
      have ihs := ih (s + 1) (by omega) (by omega)
      simp only [retryGo, h1s, if_pos hlt, ihs]
      rw [show m - s = (m - (s + 1)) + 1 by omega, List.range'_succ,
        List.flatMap_cons]
      simp

/-- When every acquisition attempt fails, the retry wrapper returns
`none`, whatever `max_retries` is. -/
theorem capture_frame_with_retry_fail (oracle : Nat → SubprocessOutcome)
    (n : Int) (h : ∀ i, capture_frame (oracle i) = none) :
    (capture_frame_with_retry oracle n).2 = none := by
  unfold capture_frame_with_retry
  rw [retryGo_fail_eq oracle n.toNat (List.range n.toNat) (fun a _ => h a)]

/-! ## General lemmas about the cycle loop -/

theorem cameraLoop_stopped (cfg : ClientConfig)
    (behs : String → CameraBehavior) (runningAt : Nat → Bool)
    (l : List CameraConfig) (i : Nat) (h : runningAt i = false) :
    cameraLoop cfg behs runningAt l i = [] := by
  cases l <;> simp [cameraLoop, h]

/-- With the running flag true at every check, the cycle processes every
configured camera in order. -/
theorem cameraLoop_all_running (cfg : ClientConfig)
    (behs : String → CameraBehavior) (l : List CameraConfig) :
    ∀ i, cameraLoop cfg behs (fun _ => true) l i =
      l.flatMap (fun c => process_camera cfg c (behs c.camera_id)) := by
  induction l with
  | nil => intro i; rfl
  | cons c cs ih => intro i; simp [cameraLoop, List.flatMap_cons, ih]

theorem filter_health_mapRetry (cid : String) (revs : List RetryEvent) :
    (revs.map (retryEventFor cid)).filter isHealthReportEv = [] := by
  induction revs with
  | nil => rfl
  | cons e rest ih =>
    cases e <;> simp [retryEventFor, isHealthReportEv, ih]

theorem filter_submit_mapRetry (cid : String) (revs : List RetryEvent) :
    (revs.map (retryEventFor cid)).filter isSubmitEv = [] := by
  induction revs with
  | nil => rfl
  | cons e rest ih =>
    cases e <;> simp [retryEventFor, isSubmitEv, ih]

/-- When acquisition fails after all retries, `process_camera` emits the
retry trace followed by exactly one health report. -/
theorem process_camera_fail (cfg : ClientConfig) (camera : CameraConfig)
    (beh : CameraBehavior)
    (hfail : (capture_frame_with_retry beh.subprocessAt cfg.max_retries).2 =
      none) :
    process_camera cfg camera beh =
      (capture_frame_with_retry beh.subprocessAt cfg.max_retries).1.map
        (retryEventFor camera.camera_id)
      ++ [Event.healthReport camera.camera_id
            ("Failed to capture frame from " ++ camera.rtsp_url)] := by
  simp only [process_camera, hfail]

/-- When acquisition succeeds, `process_camera` emits the retry trace
followed by exactly one detection submission. -/
theorem process_camera_success (cfg : ClientConfig) (camera : CameraConfig)
    (beh : CameraBehavior) (f : Bytes)
    (hcap : (capture_frame_with_retry beh.subprocessAt cfg.max_retries).2 =
      some f) :
    process_camera cfg camera beh =
      (capture_frame_with_retry beh.subprocessAt cfg.max_retries).1.map
        (retryEventFor camera.camera_id)
      ++ [Event.submitFrame camera.camera_id
            (send_frame beh.httpOutcome)] := by
  simp only [process_camera, hcap]

/-- A nonempty list of writes that are all `handleShutdown` leaves the flag
false, from any starting value. -/
theorem foldl_shutdown_false (l : List FlagAction)
    (h : ∀ a ∈ l, a = .handleShutdown) (hne : l ≠ []) (b : Bool) :
    List.foldl applyFlagAction b l = false := by
  induction l generalizing b with
  | nil => exact absurd rfl hne
  | cons a rest ih =>
    have ha := h a (List.mem_cons_self a rest)
    subst ha
    rw [List.foldl_cons]
    by_cases hr : rest = []
    · subst hr; rfl
    · exact ih (fun x hx => h x (List.mem_cons_of_mem _ hx)) hr _

/-- A malformed entry anywhere in the `--camera` list makes the whole parse
fail. -/
theorem parseCameraArgs_none_of_mem (l : List String) (s : String)
    (hs : s ∈ l) (hp : parseCameraArg s = none) :
    parseCameraArgs l = none := by
  induction l with
  | nil => cases hs
  | cons x rest ih =>
    rcases List.mem_cons.mp hs with h | h
    · subst h
      simp [parseCameraArgs, hp]
    · cases hpx : parseCameraArg x with
      | none => simp [parseCameraArgs, hpx]
      | some v =>
        obtain ⟨cid, url⟩ := v
        simp [parseCameraArgs, hpx, ih h]

/-! ## Claim theorems -/

/-- C1: for every configured `max_retries = N ≥ 1` and a source whose
acquisition fails on every attempt, `capture_frame_with_retry` calls
`capture_frame` exactly N times, sleeps `2 ^ i` seconds after the i-th
failed attempt for `i = 0 … N-2` (and after no other attempt, in
particular not after the final one), and returns `none` only after the
N-th attempt: the trace is N-1 failure/sleep pairs followed by the final
failed capture. -/
theorem retry_all_attempts_on_failure (N : Nat) (hN : 1 ≤ N)
    (oracle : Nat → SubprocessOutcome)
    (h : ∀ i, capture_frame (oracle i) = none) :
    capture_frame_with_retry oracle (N : Int) =
      ((List.range (N - 1)).flatMap (fun a =>
          [RetryEvent.capture a none, RetryEvent.backoffSleep (2 ^ a)])
        ++ [RetryEvent.capture (N - 1) none], none) ∧
    captureCalls (capture_frame_with_retry oracle (N : Int)).1 = N ∧
    sleepDurations (capture_frame_with_retry oracle (N : Int)).1 =
      (List.range (N - 1)).map (2 ^ ·) ∧
    (capture_frame_with_retry oracle (N : Int)).1.getLast? =
      some (RetryEvent.capture (N - 1) none) ∧
    (capture_frame_with_retry oracle (N : Int)).2 = none := by
  obtain ⟨M, rfl⟩ : ∃ M, N = M + 1 := ⟨N - 1, by omega⟩
  have key := retryGo_fail_eq oracle (M + 1) (List.range (M + 1))
    (fun a _ => h a)
  have htrace : capture_frame_with_retry oracle ((M + 1 : Nat) : Int) =
      ((List.range M).flatMap (fun a =>
          [RetryEvent.capture a none, RetryEvent.backoffSleep (2 ^ a)])
        ++ [RetryEvent.capture M none], none) := by
    unfold capture_frame_with_retry
    rw [Int.toNat_natCast, key, List.range_succ, List.flatMap_append]
    have hM : ¬ (M < M + 1 - 1) := by omega
    rw [flatMap_chunk_eq (M + 1) (List.range M)
      (fun a ha => by have := List.mem_range.mp ha; omega)]
    simp [hM]
  refine ⟨by simpa using htrace, ?_, ?_, ?_, by rw [htrace]⟩
  · rw [htrace]
    simp only [captureCalls_append, captureCalls_pairTrace]
    simp [captureCalls, isCaptureEvent]
  · rw [htrace]
    simp only [sleepDurations_append, sleepDurations_pairTrace]
    simp [sleepDurations]
  · rw [htrace]
    simp [List.getLast?_concat]

/-- Witness for C1: an always-failing source with `max_retries = 3` is
attempted 3 times, with sleeps of 1 and 2 seconds, and returns `none`. -/
theorem retry_all_attempts_on_failure_witness :
    captureCalls (capture_frame_with_retry alwaysTimeout ((3 : Nat) : Int)).1
      = 3 ∧
    sleepDurations
        (capture_frame_with_retry alwaysTimeout ((3 : Nat) : Int)).1 =
      (List.range (3 - 1)).map (2 ^ ·) ∧
    (capture_frame_with_retry alwaysTimeout ((3 : Nat) : Int)).2 = none := by
  have h := retry_all_attempts_on_failure 3 (by omega) alwaysTimeout
    (fun i => rfl)
  exact ⟨h.2.1, h.2.2.1, h.2.2.2.2⟩

/-- C2 counterexample: the claim asserts that a shutdown request raised
during a retry backoff sleep makes the process exit within the remaining
bound of the single current in-flight operation (at most 10 seconds).  The
retry loop of `capture_frame_with_retry` (main.py lines 145-157) never
reads `self.running`, which the embedding reflects: the loop takes no
running flag, so its trace is unchanged by a shutdown request.  With the
default `max_retries = 5` and an always-failing source, the work performed
after the first backoff sleep — where the shutdown request is pending —
still contains backoff sleeps totalling 14 seconds (2 + 4 + 8) and 4
further `capture_frame` calls, so the process cannot exit within 10 time
units of the shutdown request. -/
theorem retry_backoff_ignores_shutdown_cex :
    totalSleep (afterFirstSleep
      (capture_frame_with_retry alwaysTimeout 5).1) = 14 ∧
    10 < totalSleep (afterFirstSleep
      (capture_frame_with_retry alwaysTimeout 5).1) ∧
    captureCalls (afterFirstSleep
      (capture_frame_with_retry alwaysTimeout 5).1) = 4 := by
  decide

/-- C2 amended: a shutdown request raised while the flow is suspended in a
retry backoff sleep does not interrupt the retry loop; the current
source's processing runs to completion (its full retry trace, including
all remaining attempts and backoff sleeps), after which the remaining
sources of the cycle are skipped and the inter-cycle sleep is not
performed, so the process exits only after the in-progress source
finishes. -/
theorem shutdown_skips_rest_of_cycle (cfg : ClientConfig)
    (behs : String → CameraBehavior) (camera : CameraConfig)
    (rest : List CameraConfig) (runningAt : Nat → Bool) (elapsed : ℚ)
    (h0 : runningAt 0 = true) (hstop : ∀ j, 1 ≤ j → runningAt j = false) :
    cameraLoop cfg behs runningAt (camera :: rest) 0 =
      process_camera cfg camera (behs camera.camera_id) ∧
    cycleSleep cfg.interval elapsed false = 0 := by
  constructor
  · rw [cameraLoop, if_pos h0, cameraLoop_stopped cfg behs runningAt rest 1
      (hstop 1 (by omega))]
    simp
  · simp [cycleSleep]

/-- Witness for C2 amended: two configured cameras, shutdown requested
while the first is being processed — the cycle consists exactly of the
first camera's full processing and the inter-cycle sleep is skipped. -/
theorem shutdown_skips_rest_of_cycle_witness :
    cameraLoop cfgW behsTimeout (fun j => decide (j = 0)) [camA, camB] 0 =
      process_camera cfgW camA (behsTimeout camA.camera_id) ∧
    cycleSleep cfgW.interval 1 false = 0 := by
  exact shutdown_skips_rest_of_cycle cfgW behsTimeout camA [camB]
    (fun j => decide (j = 0)) 1 (by decide)
    (fun j hj => by simp only [decide_eq_false_iff_not]; omega)

/-- C3: after processing all sources, the scheduler sleeps exactly
`max(0, interval − elapsed)`, so the gap from one cycle start to the next
is `max(interval, elapsed)`: the configured interval when processing was
faster, and zero additional delay (no catch-up, no queueing) when
processing took at least the interval. -/
theorem cycle_sleep_residual (I P : ℚ) :
    cycleSleep I P true = max 0 (I - P) ∧ cycleGap I P = max I P := by
  have key : cycleSleep I P true = max 0 (I - P) := by
    unfold cycleSleep cycle_sleep_time
    split_ifs with h
    · rfl
    · have h0 : (0:ℚ) ≤ max 0 (I - P) := le_max_left _ _
      have h1 : ¬ (0 < max 0 (I - P)) := fun hc => h ⟨hc, rfl⟩
      linarith [not_lt.mp h1]
  refine ⟨key, ?_⟩
  unfold cycleGap
  rw [key]
  rcases le_total I P with h | h
  · rw [max_eq_left (by linarith : I - P ≤ 0), max_eq_right h]
    ring
  · rw [max_eq_right (by linarith : (0:ℚ) ≤ I - P), max_eq_left h]
    ring

/-- C4: for `max_retries = N` and `1 ≤ k ≤ N`, if acquisition fails on
attempts `1 … k-1` and succeeds on attempt `k`, the retry loop calls
`capture_frame` exactly k times, returns the captured bytes immediately,
and performs no sleep after the successful attempt (the trace ends with
the successful capture). -/
theorem retry_stops_at_first_success (N k : Nat) (hk1 : 1 ≤ k)
    (hkN : k ≤ N) (oracle : Nat → SubprocessOutcome) (f : Bytes)
    (h1 : ∀ i, i < k - 1 → capture_frame (oracle i) = none)
    (h2 : capture_frame (oracle (k - 1)) = some f) :
    capture_frame_with_retry oracle (N : Int) =
      ((List.range (k - 1)).flatMap (fun a =>
          [RetryEvent.capture a none, RetryEvent.backoffSleep (2 ^ a)])
        ++ [RetryEvent.capture (k - 1) (some f)], some f) ∧
    captureCalls (capture_frame_with_retry oracle (N : Int)).1 = k ∧
    sleepDurations (capture_frame_with_retry oracle (N : Int)).1 =
      (List.range (k - 1)).map (2 ^ ·) ∧
    (capture_frame_with_retry oracle (N : Int)).1.getLast? =
      some (RetryEvent.capture (k - 1) (some f)) ∧
    (capture_frame_with_retry oracle (N : Int)).2 = some f := by
  have key := retryGo_first_success oracle N (k - 1) f h1 h2 (by omega)
    N 0 (by omega) (by omega)
  have htrace : capture_frame_with_retry oracle ((N : Nat) : Int) =
      ((List.range (k - 1)).flatMap (fun a =>
          [RetryEvent.capture a none, RetryEvent.backoffSleep (2 ^ a)])
        ++ [RetryEvent.capture (k - 1) (some f)], some f) := by
    unfold capture_frame_with_retry
    rw [Int.toNat_natCast, List.range_eq_range', key]
    simp [List.range_eq_range']
  refine ⟨htrace, ?_, ?_, ?_, by rw [htrace]⟩
  · rw [htrace]
    simp only [captureCalls_append, captureCalls_pairTrace]
    simp [captureCalls, isCaptureEvent]
    omega
  · rw [htrace]
    simp only [sleepDurations_append, sleepDurations_pairTrace]
    simp [sleepDurations]
  · rw [htrace]
    simp [List.getLast?_concat]

/-- Witness for C4: with `max_retries = 3`, a source failing on attempt 1
and succeeding on attempt 2 is attempted exactly twice, the trace ends
with the successful capture, and the captured bytes are returned. -/
theorem retry_stops_at_first_success_witness :
    captureCalls (capture_frame_with_retry failThenOk ((3 : Nat) : Int)).1
      = 2 ∧
    (capture_frame_with_retry failThenOk ((3 : Nat) : Int)).1.getLast? =
      some (RetryEvent.capture (2 - 1) (some okBytes)) ∧
    (capture_frame_with_retry failThenOk ((3 : Nat) : Int)).2 =
      some okBytes := by
  have h := retry_stops_at_first_success 3 2 (by omega) (by omega)
    failThenOk okBytes
    (fun i hi => by
      have hi0 : i = 0 := by omega
      subst hi0
      rfl)
    rfl
  exact ⟨h.2.1, h.2.2.2.1, h.2.2.2.2⟩

/-- C5: when a source A's acquisition fails after all retries, its
processing ends with exactly one health report carrying A's identifier and
the failure description, it performs no detection submission, and with no
shutdown request pending every camera of the cycle — in particular every
source later than A in the configured order — is still processed within
the same cycle. -/
theorem failed_source_reports_health_cycle_continues (cfg : ClientConfig)
    (behs : String → CameraBehavior) (pre post : List CameraConfig)
    (A : CameraConfig)
    (hfail : ∀ i, capture_frame ((behs A.camera_id).subprocessAt i) = none) :
    cameraLoop cfg behs (fun _ => true) (pre ++ A :: post) 0 =
      pre.flatMap (fun c => process_camera cfg c (behs c.camera_id))
        ++ process_camera cfg A (behs A.camera_id)
        ++ post.flatMap (fun c => process_camera cfg c (behs c.camera_id)) ∧
    (process_camera cfg A (behs A.camera_id)).filter isHealthReportEv =
      [Event.healthReport A.camera_id
        ("Failed to capture frame from " ++ A.rtsp_url)] ∧
    (process_camera cfg A (behs A.camera_id)).filter isSubmitEv = [] := by
  have h2 := capture_frame_with_retry_fail (behs A.camera_id).subprocessAt
    cfg.max_retries hfail
  have hpc := process_camera_fail cfg A (behs A.camera_id) h2
  refine ⟨?_, ?_, ?_⟩
  · rw [cameraLoop_all_running, List.flatMap_append, List.flatMap_cons]
    simp [List.append_assoc]
  · rw [hpc, List.filter_append, filter_health_mapRetry]
    simp [isHealthReportEv]
  · rw [hpc, List.filter_append, filter_submit_mapRetry]
    simp [isSubmitEv]

/-- Witness for C5: camera `cam1` always failing produces exactly one
health report with its id and failure message and no submission. -/
theorem failed_source_reports_health_cycle_continues_witness :
    (process_camera cfgW camA behTimeout).filter isHealthReportEv =
      [Event.healthReport "cam1" "Failed to capture frame from rtsp://a"] ∧
    (process_camera cfgW camA behTimeout).filter isSubmitEv = [] := by
  have h := failed_source_reports_health_cycle_continues cfgW behsTimeout
    [] [camB] camA (fun i => rfl)
  exact ⟨h.2.1, h.2.2⟩

/-- C6: for every outcome in the submission error taxonomy — HTTP 401,
HTTP 404, any other non-200 status, timeout, connection failure —
`send_frame` returns `none` rather than raising; when the frame was
captured successfully the camera's processing emits no health report and
consists of the retry trace plus exactly one submission event whose
payload is the only thing the HTTP outcome influences, and the cycle
proceeds to the remaining sources. -/
theorem submission_failure_nonfatal (cfg : ClientConfig)
    (behs : String → CameraBehavior) (camera : CameraConfig)
    (rest : List CameraConfig) (f : Bytes)
    (hcap : (capture_frame_with_retry (behs camera.camera_id).subprocessAt
        cfg.max_retries).2 = some f) :
    (∀ b, send_frame (.response 401 b) = none) ∧
    (∀ b, send_frame (.response 404 b) = none) ∧
    (∀ s b, s ≠ 200 → send_frame (.response s b) = none) ∧
    send_frame .timeout = none ∧
    send_frame .connectionError = none ∧
    process_camera cfg camera (behs camera.camera_id) =
      (capture_frame_with_retry (behs camera.camera_id).subprocessAt
          cfg.max_retries).1.map (retryEventFor camera.camera_id)
        ++ [Event.submitFrame camera.camera_id
              (send_frame (behs camera.camera_id).httpOutcome)] ∧
    (process_camera cfg camera (behs camera.camera_id)).filter
        isHealthReportEv = [] ∧
    cameraLoop cfg behs (fun _ => true) (camera :: rest) 0 =
      process_camera cfg camera (behs camera.camera_id)
        ++ cameraLoop cfg behs (fun _ => true) rest 1 := by
  have hpc := process_camera_success cfg camera (behs camera.camera_id) f
    hcap
  refine ⟨fun b => by simp [send_frame], fun b => by simp [send_frame],
    fun s b hs => ?_, rfl, rfl, hpc, ?_, ?_⟩
  · simp only [send_frame]
    split_ifs <;> simp_all
  · rw [hpc, List.filter_append, filter_health_mapRetry]
    simp [isHealthReportEv]
  · simp [cameraLoop]

/-- Witness for C6: camera `cam1` captures successfully and the detection
endpoint returns HTTP 401 — the submission returns `none` and no health
report is emitted. -/
theorem submission_failure_nonfatal_witness :
    send_frame HttpOutcome.timeout = none ∧
    (process_camera cfgW camA behOk401).filter isHealthReportEv = [] := by
  have h := submission_failure_nonfatal cfgW (fun _ => behOk401) camA []
    okBytes (by decide)
  exact ⟨h.2.2.2.1, h.2.2.2.2.2.2.1⟩

/-- C7 counterexample: the claim asserts the running flag flips from true
to false exactly once on the first shutdown signal and is never reset,
regardless of when the signal arrives relative to the start of the main
loop.  The handlers are installed in `__init__` (flag false) while `run`
sets `self.running = True` only when it starts (main.py line 298): a
shutdown signal delivered between the two is overwritten — after the
first (and only) shutdown signal the flag is reset to true. -/
theorem running_flag_reset_cex :
    flagAfter [.handleShutdown] = false ∧
    flagAfter [.handleShutdown, .startRun] = true := by
  decide

/-- C7 amended: provided the shutdown signal arrives after `run` has set
the running flag to true, the flag flips to false on the first signal and
is never set back to true (the handler only ever writes false, and both
SIGINT and SIGTERM are bound to that same handler); a signal delivered
before `run` starts is lost, overwritten by `run` setting the flag to
true. -/
theorem running_flag_monotone_after_start (sigs p q : List FlagAction)
    (hsig : ∀ a ∈ sigs, a = .handleShutdown) (hsplit : sigs = p ++ q)
    (hp : p ≠ []) :
    flagAfter (.startRun :: sigs) = false ∧
    List.foldl applyFlagAction true p = false ∧
    installedHandler .sigint = .handleShutdown ∧
    installedHandler .sigterm = .handleShutdown := by
  have hsigs_ne : sigs ≠ [] := by
    intro h
    rw [h] at hsplit
    exact hp (List.append_eq_nil.mp hsplit.symm).1
  refine ⟨?_, ?_, rfl, rfl⟩
  · unfold flagAfter
    rw [List.foldl_cons]
    exact foldl_shutdown_false sigs hsig hsigs_ne _
  · exact foldl_shutdown_false p
      (fun a ha => hsig a (hsplit ▸ List.mem_append_left q ha)) hp true

/-- Witness for C7 amended: run starts, then one shutdown signal — the
flag ends false, and is already false right after the signal. -/
theorem running_flag_monotone_after_start_witness :
    flagAfter [FlagAction.startRun, FlagAction.handleShutdown] = false ∧
    List.foldl applyFlagAction true [FlagAction.handleShutdown] = false := by
  have h := running_flag_monotone_after_start [.handleShutdown]
    [.handleShutdown] [] (fun a ha => by simpa using ha) rfl (by decide)
  exact ⟨h.1, h.2.1⟩

/-- C8: every invalid startup configuration — missing/empty API URL,
missing/empty API key, camera resolution yielding zero sources, a
malformed `--camera` specification (no colon), or a failing config-file
load — makes `main` exit with status 1 before the scheduler starts, and a
valid configuration reaches the scheduler (`mainValidate` returns the
`ClientConfig`; every post-startup failure class is modelled as a value,
never an exit). -/
theorem startup_validation_exit (args : Args)
    (fileLoad : Option (List CameraConfig)) (envCameras : List CameraConfig)
    (s : String) (l : List String) (cams : List CameraConfig) :
    (strFalsy args.api_url = true →
      mainValidate args fileLoad envCameras = .error 1) ∧
    (strFalsy args.api_key = true →
      mainValidate args fileLoad envCameras = .error 1) ∧
    (resolveCameras args fileLoad envCameras = .ok [] →
      mainValidate args fileLoad envCameras = .error 1) ∧
    (strFalsy args.config = true → args.cameras = some l → s ∈ l →
      parseCameraArg s = none →
      mainValidate args fileLoad envCameras = .error 1) ∧
    (strFalsy args.config = false → fileLoad = none →
      mainValidate args fileLoad envCameras = .error 1) ∧
    (strFalsy args.api_url = false → strFalsy args.api_key = false →
      resolveCameras args fileLoad envCameras = .ok cams → cams ≠ [] →
      ∃ cfg, mainValidate args fileLoad envCameras = .ok cfg) := by
  refine ⟨?_, ?_, ?_, ?_, ?_, ?_⟩
  · intro h
    simp [mainValidate, h]
  · intro h
    by_cases hu : strFalsy args.api_url <;> simp [mainValidate, hu, h]
  · intro h
    by_cases hu : strFalsy args.api_url <;>
      by_cases hk : strFalsy args.api_key <;>
        simp [mainValidate, hu, hk, h]
  · intro hc hl hmem hp
    have hresolve : resolveCameras args fileLoad envCameras = .error 1 := by
      have hne : l ≠ [] := List.ne_nil_of_mem hmem
      have hemp : l.isEmpty = false := by
        cases l
        · exact absurd rfl hne
        · rfl
      simp [resolveCameras, hc, hl, hemp,
        parseCameraArgs_none_of_mem l s hmem hp]
    by_cases hu : strFalsy args.api_url <;>
      by_cases hk : strFalsy args.api_key <;>
        simp [mainValidate, hu, hk, hresolve]
  · intro hc hf
    have hresolve : resolveCameras args fileLoad envCameras = .error 1 := by
      simp [resolveCameras, hc, hf]
    by_cases hu : strFalsy args.api_url <;>
      by_cases hk : strFalsy args.api_key <;>
        simp [mainValidate, hu, hk, hresolve]
  · intro hu hk hres hne
    have hemp : cams.isEmpty = false := by
      cases cams
      · exact absurd rfl hne
      · rfl
    refine ⟨{ api_url := (args.api_url.getD "").dropRightWhile (· = '/'),
              api_key := args.api_key.getD "",
              cameras := cams,
              interval := args.interval,
              max_retries := args.max_retries }, ?_⟩
    simp [mainValidate, hu, hk, hres, hemp]

/-- Witness for C8: a malformed `--camera nocolon` exits with status 1,
and a well-formed configuration reaches the scheduler. -/
theorem startup_validation_exit_witness :
    mainValidate argsBad none [] = .error 1 ∧
    (∃ cfg, mainValidate argsOk none [camA] = .ok cfg) := by
  have h1 := (startup_validation_exit argsBad none [] "nocolon"
    ["nocolon"] []).2.2.2.1
  have h2 := (startup_validation_exit argsOk none [camA] "" []
    [camA]).2.2.2.2.2
  exact ⟨h1 rfl rfl (by simp) (by decide), h2 rfl rfl rfl (by decide)⟩

/-- C9: `capture_frame` returns `none` — never bytes, never an exception —
whenever the acquired payload has zero length, and likewise for each
failure class: non-zero ffmpeg exit status, capture tool not installed
(`FileNotFoundError`), process timeout, and any other exception. -/
theorem capture_frame_failure_none (returncode : Int) (stdout : Bytes) :
    (stdout.length = 0 → capture_frame (.completed returncode stdout) =
      none) ∧
    (returncode ≠ 0 → capture_frame (.completed returncode stdout) =
      none) ∧
    capture_frame .fileNotFound = none ∧
    capture_frame .timeoutExpired = none ∧
    capture_frame .otherError = none := by
  refine ⟨?_, ?_, rfl, rfl, rfl⟩
  · intro h
    simp only [capture_frame]
    split_ifs <;>
      simp_all
  · intro h
    simp only [capture_frame]
    rw [if_pos h]

/-- Witness for C9: a zero-length payload and a non-zero exit status both
yield `none`. -/
theorem capture_frame_failure_none_witness :
    capture_frame (.completed 0 []) = none ∧
    capture_frame (.completed 5 okBytes) = none :=
  ⟨(capture_frame_failure_none 0 []).1 rfl,
   (capture_frame_failure_none 5 okBytes).2.1 (by decide)⟩

/-- C10: when the configured `max_retries` is zero or negative (accepted
by the CLI's `int` parser), `range(max_retries)` is empty, so
`capture_frame_with_retry` performs no acquisition attempt and no sleep
and returns `none`. -/
theorem retry_nonpositive_no_attempts (oracle : Nat → SubprocessOutcome)
    (n : Int) (hn : n ≤ 0) :
    capture_frame_with_retry oracle n = ([], none) := by
  unfold capture_frame_with_retry
  rw [Int.toNat_of_nonpos hn]
  rfl

/-- Witness for C10: `max_retries = -3` produces the empty trace and
`none`. -/
theorem retry_nonpositive_no_attempts_witness :
    capture_frame_with_retry alwaysTimeout (-3) = ([], none) :=
  retry_nonpositive_no_attempts alwaysTimeout (-3) (by decide)

end RPiVision
